import Mathlib

/-!
Verification development for the NVDA phrase-boundary interrupt-suppression
coordinator (src/nvda/nvda.py).

The shallow embedding below translates the coordinator code into Lean:

- The process-wide mutable class `NVDAState` becomes an explicit state record
  threaded through the two entry points.
- The two speech-system callbacks `disable_interrupt` (pre:phrase) and
  `enable_interrupt` (post:phrase) become pure functions from the external
  facts and the current state to a `CallResult` that records the new state,
  every batch passed to the command channel during the call, whether a
  deferred action was scheduled via cron.after (and with which delay), and
  whether an exception escaped the call.
- The external command-batch channel `actions.user.send_ipc_commands` is a
  parameter returning `Except Unit _`: `Except.error ()` models a transport
  error raised by the channel; the Python code has no try/except around the
  call, so the embedding propagates the error by marking `raised := true`
  with the state left as it was.
- The cron.after lambda in `enable_interrupt` is
  `lambda: actions.user.send_ipc_commands(NVDAState.reenable_commands)`:
  a Python closure that reads the class attribute when it fires, not when it
  is scheduled.  `deferredAction` models the batch that lambda sends as a
  function of the state at fire time.
- `is_nvda_running` becomes a function of the platform flag (`os.name ==
  "nt"`), whether the client library loaded, the status code returned by
  `nvdaController_testIfRunning`, and the debug-logging setting.
-/

namespace SightFreeTalon

/-- External precondition facts consulted (not owned) by the coordinator:
whether `actions.user.is_nvda_running()` returns true, whether `"sleep" in
scope.get("mode")`, and whether `os.path.exists(SPEC_FILE)`. -/
structure Externals where
  nvda_running : Bool
  sleep_mode : Bool
  spec_file_exists : Bool
deriving DecidableEq

/-- The class `NVDAState`: `pre_phrase_sent` and `reenable_commands`. -/
structure NVDAState where
  pre_phrase_sent : Bool
  reenable_commands : List String
deriving DecidableEq

/-- Initial class-attribute values: `pre_phrase_sent = False`,
`reenable_commands = []`. -/
def initState : NVDAState :=
  { pre_phrase_sent := false, reenable_commands := [] }

/-- Observable outcome of one call to an entry point: the state after the
call, the batches passed synchronously to `send_ipc_commands` during the
call, the delay (ms) of the cron.after action if one was scheduled, and
whether an exception escaped the call. -/
structure CallResult where
  state : NVDAState
  sentBatches : List (List String)
  scheduledDelayMs : Option Nat
  raised : Bool
deriving DecidableEq

/-- The ordered batch sent at phrase start: three query commands followed by
the three matching disable commands (nvda.py lines 174-181). -/
def phraseStartCommands : List String :=
  ["getSpeechInterruptForCharacters", "getSpeakTypedWords",
   "getSpeakTypedCharacters", "disableSpeechInterruptForCharacters",
   "disableSpeakTypedWords", "disableSpeakTypedCharacters"]

/-- One arm of the `match command:` statement (nvda.py lines 186-192): the
three query-command names, guarded by `if value`; on a match the appended
command is `cmd.replace("get", "enable")`.  In each of the three matched
names the substring "get" occurs only as the three-character prefix, so the
replacement equals dropping the prefix and prepending "enable". -/
def matchQueryCase (command : String) (value : Bool) : Option String :=
  if (command == "getSpeechInterruptForCharacters" ||
      command == "getSpeakTypedWords" ||
      command == "getSpeakTypedCharacters") && value then
    some ("enable" ++ command.drop 3)
  else
    none

/-- One iteration of the `for command, value in results:` loop body
(nvda.py lines 185-192): append on a guarded match, otherwise keep the
accumulated list. -/
def processStep (acc : List String) (p : String × Bool) : List String :=
  match matchQueryCase p.1 p.2 with
  | some cmd => acc ++ [cmd]
  | none => acc

/-- The loop of nvda.py lines 184-192: starting from the fresh empty list
assigned at line 184, fold the loop body over the results in order. -/
def processResults (results : List (String × Bool)) : List String :=
  results.foldl processStep []

/-- Modelled from the spec (section 4.2 and property P2), for comparison
with `processResults`: keep exactly the query results whose value is
truthy, in result order, each rewritten to its enable form. -/
def isQueryCommand (c : String) : Bool :=
  c == "getSpeechInterruptForCharacters" || c == "getSpeakTypedWords" ||
  c == "getSpeakTypedCharacters"

/-- Modelled from the spec (section 4.3 step 3 of phrase-started): the
enable-form counterparts of the truthy query results, preserving order. -/
def specReenable (results : List (String × Bool)) : List String :=
  (results.filter fun p => isQueryCommand p.1 && p.2).map
    fun p => "enable" ++ p.1.drop 3

/-- The early-return condition of `disable_interrupt` (nvda.py lines
163-167): not running, or sleep mode, or spec file absent. -/
def disableGateBlocks (ext : Externals) : Bool :=
  !ext.nvda_running || ext.sleep_mode || !ext.spec_file_exists

/-- The early-return condition of `enable_interrupt` (nvda.py lines
199-206): not running, or (sleep mode and the pre-phrase command was never
sent), or spec file absent. -/
def enableGateBlocks (ext : Externals) (s : NVDAState) : Bool :=
  !ext.nvda_running || (ext.sleep_mode && !s.pre_phrase_sent) ||
    !ext.spec_file_exists

/-- `disable_interrupt` (nvda.py lines 161-194), the pre:phrase callback.
The gate at lines 163-168 returns early when NVDA is not running, or sleep
mode is active, or the spec file is absent.  Otherwise the six-command
batch is sent; the Python call has no exception handler, so a transport
error escapes the function with the state untouched (the assignments at
lines 184-194 come after the call).  On success `reenable_commands` is
rebuilt by the loop and `pre_phrase_sent` is set to true. -/
def disable_interrupt (ext : Externals)
    (send_ipc_commands : List String → Except Unit (List (String × Bool)))
    (s : NVDAState) : CallResult :=
  if disableGateBlocks ext then
    { state := s, sentBatches := [], scheduledDelayMs := none, raised := false }
  else
    match send_ipc_commands phraseStartCommands with
    | Except.error _ =>
        { state := s, sentBatches := [phraseStartCommands],
          scheduledDelayMs := none, raised := true }
    | Except.ok results =>
        { state := { pre_phrase_sent := true,
                     reenable_commands := processResults results },
          sentBatches := [phraseStartCommands],
          scheduledDelayMs := none, raised := false }

/-- `enable_interrupt` (nvda.py lines 197-221), the post:phrase callback.
The gate at lines 199-207 returns early when NVDA is not running, or sleep
mode is active while `pre_phrase_sent` is false, or the spec file is
absent.  An empty `reenable_commands` returns early at lines 212-213
without touching any state.  Otherwise cron.after is called with "400ms"
and the restore lambda, and `pre_phrase_sent` is reset to false at line
221.  No synchronous channel call happens inside this function: the send
lives inside the scheduled lambda. -/
def enable_interrupt (ext : Externals) (s : NVDAState) : CallResult :=
  if enableGateBlocks ext s then
    { state := s, sentBatches := [], scheduledDelayMs := none, raised := false }
  else if s.reenable_commands.length = 0 then
    { state := s, sentBatches := [], scheduledDelayMs := none, raised := false }
  else
    { state := { s with pre_phrase_sent := false }, sentBatches := [],
      scheduledDelayMs := some 400, raised := false }

/-- The batch sent by the scheduled lambda
`lambda: actions.user.send_ipc_commands(NVDAState.reenable_commands)`
(nvda.py lines 216-218) when it fires while the coordinator state is
`fireState`: the Python closure captures no value, it reads the class
attribute `NVDAState.reenable_commands` at call time. -/
def deferredAction (fireState : NVDAState) : List String :=
  fireState.reenable_commands

/-- `is_nvda_running` (nvda.py lines 76-89): false off Windows or when the
client library is not loaded; otherwise true exactly when the status code
returned by `nvdaController_testIfRunning` equals the constant 0.  On a
nonzero code the `user.addon_debug` setting only selects whether a
diagnostic line is printed; the returned value is false either way. -/
def is_nvda_running (os_is_nt : Bool) (client_loaded : Bool)
    (client_response : Int) (addon_debug : Bool) : Bool :=
  if !os_is_nt || !client_loaded then
    false
  else if client_response = 0 then
    true
  else
    -- addon_debug only gates a print side channel here
    match addon_debug with
    | true => false
    | false => false

/-! Concrete fixtures used by counterexamples and witnesses. -/

/-- Externals with NVDA running, sleep mode off, and the spec file present:
the configuration in which both gates pass from the initial state. -/
def extOn : Externals :=
  { nvda_running := true, sleep_mode := false, spec_file_exists := true }

/-- A channel reply for a first phrase in which only speak-typed-words was
enabled; the three disable commands acknowledge with true. -/
def firstPhraseReply : List (String × Bool) :=
  [("getSpeechInterruptForCharacters", false), ("getSpeakTypedWords", true),
   ("getSpeakTypedCharacters", false),
   ("disableSpeechInterruptForCharacters", true),
   ("disableSpeakTypedWords", true), ("disableSpeakTypedCharacters", true)]

/-- A channel reply for a second phrase in which only speak-typed-characters
was enabled. -/
def secondPhraseReply : List (String × Bool) :=
  [("getSpeechInterruptForCharacters", false), ("getSpeakTypedWords", false),
   ("getSpeakTypedCharacters", true),
   ("disableSpeechInterruptForCharacters", true),
   ("disableSpeakTypedWords", true), ("disableSpeakTypedCharacters", true)]

/-- A channel that answers every batch with `firstPhraseReply`. -/
def sendFirst : List String → Except Unit (List (String × Bool)) :=
  fun _ => Except.ok firstPhraseReply

/-- A channel that answers every batch with `secondPhraseReply`. -/
def sendSecond : List String → Except Unit (List (String × Bool)) :=
  fun _ => Except.ok secondPhraseReply

/-- A channel whose call raises a transport error. -/
def sendFail : List String → Except Unit (List (String × Bool)) :=
  fun _ => Except.error ()

/-- State after a first gate-passing phrase-started with reply
`firstPhraseReply`: pre-phrase sent, one command pending re-enable. -/
def cexS1 : NVDAState :=
  (disable_interrupt extOn sendFirst initState).state

/-- Outcome of the phrase-ended call that follows: it schedules the
deferred restore while `cexS1.reenable_commands` is the pending list. -/
def cexEnd : CallResult :=
  enable_interrupt extOn cexS1

/-- State after a second gate-passing phrase-started (reply
`secondPhraseReply`) runs before the deferred action of `cexEnd` fires:
the pending list has been overwritten. -/
def cexS2 : NVDAState :=
  (disable_interrupt extOn sendSecond cexEnd.state).state

/-! Helper lemmas shared by the claim theorems. -/

lemma matchQueryCase_eq (c : String) (v : Bool) :
    matchQueryCase c v =
      if isQueryCommand c && v then some ("enable" ++ c.drop 3) else none :=
  rfl

lemma processStep_eq (acc : List String) (p : String × Bool) :
    processStep acc p =
      acc ++
        (if isQueryCommand p.1 && p.2 then ["enable" ++ p.1.drop 3]
         else []) := by
  rw [processStep, matchQueryCase_eq]
  by_cases h : (isQueryCommand p.1 && p.2) = true <;> simp [h]

lemma specReenable_cons (p : String × Bool) (rest : List (String × Bool)) :
    specReenable (p :: rest) =
      (if isQueryCommand p.1 && p.2 then ["enable" ++ p.1.drop 3] else []) ++
        specReenable rest := by
  rw [specReenable, specReenable, List.filter_cons]
  by_cases h : (isQueryCommand p.1 && p.2) = true <;> simp [h]

/-- The append-in-a-loop of nvda.py lines 184-192 computes the filter-map
described by the spec. -/
lemma foldl_processStep (results : List (String × Bool)) (acc : List String) :
    results.foldl processStep acc = acc ++ specReenable results := by
  induction results generalizing acc with
  | nil => simp [specReenable]
  | cons p rest ih =>
      rw [List.foldl_cons, processStep_eq, ih, specReenable_cons,
        List.append_assoc]

lemma processResults_eq_specReenable (results : List (String × Bool)) :
    processResults results = specReenable results := by
  rw [processResults, foldl_processStep, List.nil_append]

/-! Claim theorems. -/

/-- Claim C2: for all combinations of the three external facts, a
phrase-started call performs zero command-batch calls and mutates no
coordinator state unless the reader is running, sleep mode is off, and the
capability spec file is present; the short-circuit gate aborts with no
side effect. -/
theorem disable_noop_unless_gate (ext : Externals)
    (send : List String → Except Unit (List (String × Bool)))
    (s : NVDAState)
    (h : ¬(ext.nvda_running = true ∧ ext.sleep_mode = false ∧
      ext.spec_file_exists = true)) :
    disable_interrupt ext send s =
      { state := s, sentBatches := [], scheduledDelayMs := none,
        raised := false } := by
  have hc : disableGateBlocks ext = true := by
    rcases ext with ⟨r, sl, sp⟩
    cases r <;> cases sl <;> cases sp <;> simp_all [disableGateBlocks]
  simp [disable_interrupt, hc]

/-- Witness for C2 at a concrete blocked input (sleep mode active). -/
theorem disable_noop_unless_gate_witness :
    disable_interrupt
        { nvda_running := true, sleep_mode := true, spec_file_exists := true }
        sendFirst initState =
      { state := initState, sentBatches := [], scheduledDelayMs := none,
        raised := false } :=
  disable_noop_unless_gate
    { nvda_running := true, sleep_mode := true, spec_file_exists := true }
    sendFirst initState (by decide)

/-- Claim C3: a gate-passing phrase-started sets `reenable_commands` to
exactly the enable-form counterparts of the truthy query results, in
result order; falsy query results and action-command results contribute
nothing.  In particular the reply [(getA, true), (getB, false),
(getC, true)] yields [enableA, enableC] in that order. -/
theorem disable_sets_reenable (ext : Externals)
    (send : List String → Except Unit (List (String × Bool)))
    (results : List (String × Bool)) (s : NVDAState)
    (hr : ext.nvda_running = true) (hs : ext.sleep_mode = false)
    (hf : ext.spec_file_exists = true)
    (hsend : send phraseStartCommands = Except.ok results) :
    (disable_interrupt ext send s).state.reenable_commands =
      specReenable results ∧
    processResults
      [("getSpeechInterruptForCharacters", true), ("getSpeakTypedWords", false),
       ("getSpeakTypedCharacters", true)] =
      ["enableSpeechInterruptForCharacters", "enableSpeakTypedCharacters"] := by
  constructor
  · simp [disable_interrupt, disableGateBlocks, hr, hs, hf, hsend,
      processResults_eq_specReenable]
  · decide

/-- Witness for C3: the first-phrase fixture evaluated concretely. -/
theorem disable_sets_reenable_witness :
    (disable_interrupt extOn sendFirst initState).state.reenable_commands =
      specReenable firstPhraseReply ∧
    processResults
      [("getSpeechInterruptForCharacters", true), ("getSpeakTypedWords", false),
       ("getSpeakTypedCharacters", true)] =
      ["enableSpeechInterruptForCharacters", "enableSpeakTypedCharacters"] :=
  disable_sets_reenable extOn sendFirst firstPhraseReply initState rfl rfl
    rfl rfl

/-- Claim C9: `is_nvda_running` returns true exactly when the platform is
Windows, the client library loaded, and the status call reports code 0;
it returns false (never raises) otherwise, and the debug-logging setting
never affects the returned value. -/
theorem is_nvda_running_spec (os_is_nt client_loaded : Bool)
    (client_response : Int) (dbg dbg2 : Bool) :
    (is_nvda_running os_is_nt client_loaded client_response dbg = true ↔
      (os_is_nt = true ∧ client_loaded = true ∧ client_response = 0)) ∧
    is_nvda_running os_is_nt client_loaded client_response dbg =
      is_nvda_running os_is_nt client_loaded client_response dbg2 := by
  cases os_is_nt <;> cases client_loaded <;> cases dbg <;> cases dbg2 <;>
    by_cases h : client_response = 0 <;> simp_all [is_nvda_running]

/-- Claim C10: phrase-ended never modifies `reenable_commands`, whichever
path the call takes; in particular the pending list is not cleared when
the restore is scheduled. -/
theorem enable_preserves_reenable (ext : Externals) (s : NVDAState) :
    (enable_interrupt ext s).state.reenable_commands =
      s.reenable_commands := by
  rw [enable_interrupt]
  split
  · rfl
  · split <;> rfl

/-- Claim C1, counterexample: the scheduled lambda reads the class
attribute when it fires, so the batch it sends is not a snapshot.  A first
phrase leaves one pending command, phrase-ended schedules the 400 ms
restore, a second phrase-started overwrites the pending list before the
action fires, and the fired batch differs from the schedule-time value. -/
theorem deferred_batch_not_snapshot :
    cexEnd.scheduledDelayMs = some 400 ∧
    cexS1.reenable_commands = ["enableSpeakTypedWords"] ∧
    deferredAction cexS2 = ["enableSpeakTypedCharacters"] ∧
    deferredAction cexS2 ≠ cexS1.reenable_commands := by
  decide

/-- Claim C1 as amended: a gate-passing phrase-ended with a non-empty
pending list schedules the deferred action with the fixed 400 ms delay,
and the batch sent at fire time is the pending list as it stands at fire
time, which equals the schedule-time value only when the list was not
mutated in between. -/
theorem deferred_batch_amended (ext : Externals) (s fireState : NVDAState)
    (hr : ext.nvda_running = true) (hf : ext.spec_file_exists = true)
    (hgate : ext.sleep_mode = false ∨ s.pre_phrase_sent = true)
    (hne : s.reenable_commands ≠ []) :
    (enable_interrupt ext s).scheduledDelayMs = some 400 ∧
    (fireState.reenable_commands = s.reenable_commands →
      deferredAction fireState = s.reenable_commands) := by
  have hc : enableGateBlocks ext s = false := by
    rcases hgate with h | h <;> simp [enableGateBlocks, hr, hf, h]
  have hlen : ¬(s.reenable_commands.length = 0) := by
    simpa [List.length_eq_zero] using hne
  constructor
  · simp [enable_interrupt, hc, hlen]
  · intro hfire
    rw [deferredAction, hfire]

/-- Witness for the amended C1 at the first-phrase fixture, with the fire
state equal to the schedule-time state. -/
theorem deferred_batch_amended_witness :
    (enable_interrupt extOn
        { pre_phrase_sent := true,
          reenable_commands := ["enableSpeakTypedWords"] }).scheduledDelayMs =
      some 400 ∧
    (({ pre_phrase_sent := false,
        reenable_commands := ["enableSpeakTypedWords"] } :
          NVDAState).reenable_commands =
        ({ pre_phrase_sent := true,
           reenable_commands := ["enableSpeakTypedWords"] } :
            NVDAState).reenable_commands →
      deferredAction
          { pre_phrase_sent := false,
            reenable_commands := ["enableSpeakTypedWords"] } =
        ({ pre_phrase_sent := true,
           reenable_commands := ["enableSpeakTypedWords"] } :
            NVDAState).reenable_commands) :=
  deferred_batch_amended extOn
    { pre_phrase_sent := true, reenable_commands := ["enableSpeakTypedWords"] }
    { pre_phrase_sent := false,
      reenable_commands := ["enableSpeakTypedWords"] }
    rfl rfl (Or.inl rfl) (by decide)

/-- Claim C4: a phrase-ended while `pre_phrase_sent` is true and sleep
mode is active (reader running, spec file present) does not abort at the
gate: it proceeds to schedule the restore of a non-empty pending list. -/
theorem sleep_carry_over_schedules (ext : Externals) (s : NVDAState)
    (hr : ext.nvda_running = true) (hs : ext.sleep_mode = true)
    (hf : ext.spec_file_exists = true) (hpps : s.pre_phrase_sent = true)
    (hne : s.reenable_commands ≠ []) :
    (enable_interrupt ext s).scheduledDelayMs = some 400 := by
  have hlen : ¬(s.reenable_commands.length = 0) := by
    simpa [List.length_eq_zero] using hne
  simp [enable_interrupt, enableGateBlocks, hr, hs, hf, hpps, hlen]

/-- Witness for C4 at a concrete sleeping state with one pending command. -/
theorem sleep_carry_over_schedules_witness :
    (enable_interrupt
        { nvda_running := true, sleep_mode := true, spec_file_exists := true }
        { pre_phrase_sent := true,
          reenable_commands := ["enableSpeakTypedWords"] }).scheduledDelayMs =
      some 400 :=
  sleep_carry_over_schedules
    { nvda_running := true, sleep_mode := true, spec_file_exists := true }
    { pre_phrase_sent := true, reenable_commands := ["enableSpeakTypedWords"] }
    rfl rfl rfl rfl (by decide)

/-- Claim C5, counterexample: a phrase-ended that passes the gate (the
gate condition evaluates to false) but finds the pending list empty
returns at the empty check without resetting `pre_phrase_sent`, which
stays true instead of becoming false as the claim states. -/
theorem empty_end_keeps_flag_cex :
    enableGateBlocks extOn
        { pre_phrase_sent := true, reenable_commands := [] } = false ∧
    (enable_interrupt extOn
        { pre_phrase_sent := true,
          reenable_commands := [] }).state.pre_phrase_sent = true := by
  decide

/-- Claim C5 as amended: after a gate-passing phrase-ended,
`pre_phrase_sent` is false synchronously when the pending list was
non-empty; when the pending list was empty the call returns early and the
whole state, the flag included, is unchanged. -/
theorem reset_flag_amended (ext : Externals) (s : NVDAState)
    (hgate : enableGateBlocks ext s = false) :
    (s.reenable_commands ≠ [] →
      (enable_interrupt ext s).state.pre_phrase_sent = false) ∧
    (s.reenable_commands = [] → (enable_interrupt ext s).state = s) := by
  constructor
  · intro hne
    have hlen : ¬(s.reenable_commands.length = 0) := by
      simpa [List.length_eq_zero] using hne
    simp [enable_interrupt, hgate, hlen]
  · intro he
    simp [enable_interrupt, hgate, he]

/-- Witness for the amended C5 at a concrete non-empty pending list. -/
theorem reset_flag_amended_witness :
    (({ pre_phrase_sent := true,
        reenable_commands := ["enableSpeakTypedWords"] } :
          NVDAState).reenable_commands ≠ [] →
      (enable_interrupt extOn
          { pre_phrase_sent := true,
            reenable_commands :=
              ["enableSpeakTypedWords"] }).state.pre_phrase_sent = false) ∧
    (({ pre_phrase_sent := true,
        reenable_commands := ["enableSpeakTypedWords"] } :
          NVDAState).reenable_commands = [] →
      (enable_interrupt extOn
          { pre_phrase_sent := true,
            reenable_commands := ["enableSpeakTypedWords"] }).state =
        { pre_phrase_sent := true,
          reenable_commands := ["enableSpeakTypedWords"] }) :=
  reset_flag_amended extOn
    { pre_phrase_sent := true, reenable_commands := ["enableSpeakTypedWords"] }
    (by decide)

/-- Claim C6: a phrase-ended that passes the gate with an empty pending
list never invokes the deferred executor and leaves the coordinator state
unchanged, `pre_phrase_sent` included. -/
theorem empty_reenable_noop (ext : Externals) (s : NVDAState)
    (hgate : enableGateBlocks ext s = false)
    (he : s.reenable_commands = []) :
    enable_interrupt ext s =
      { state := s, sentBatches := [], scheduledDelayMs := none,
        raised := false } := by
  simp [enable_interrupt, hgate, he]

/-- Witness for C6 with the flag set and nothing pending. -/
theorem empty_reenable_noop_witness :
    enable_interrupt extOn
        { pre_phrase_sent := true, reenable_commands := [] } =
      { state := { pre_phrase_sent := true, reenable_commands := [] },
        sentBatches := [], scheduledDelayMs := none, raised := false } :=
  empty_reenable_noop extOn
    { pre_phrase_sent := true, reenable_commands := [] } (by decide) rfl

/-- Claim C7, counterexample: a transport error raised by the channel
during a gate-passing phrase-started escapes `disable_interrupt` (the call
has no handler), so the error is escalated to the calling flow, contrary
to the claim; the state is nevertheless unchanged. -/
theorem transport_error_escalates_cex :
    (disable_interrupt extOn sendFail initState).raised = true ∧
    (disable_interrupt extOn sendFail initState).state = initState := by
  decide

/-- Claim C7 as amended: when the channel raises, `disable_interrupt`
propagates the error but leaves the coordinator state exactly as it was
(no partial update of the pending list); `enable_interrupt` performs no
synchronous channel call at all, so it never raises a transport error into
the calling flow. -/
theorem transport_error_amended (ext : Externals)
    (send : List String → Except Unit (List (String × Bool)))
    (s : NVDAState)
    (hfail : send phraseStartCommands = Except.error ()) :
    (disable_interrupt ext send s).state = s ∧
    ∀ ext2 : Externals, ∀ s2 : NVDAState,
      (enable_interrupt ext2 s2).raised = false ∧
      (enable_interrupt ext2 s2).sentBatches = [] := by
  constructor
  · by_cases hg : disableGateBlocks ext = true
    · simp [disable_interrupt, hg]
    · simp only [Bool.not_eq_true] at hg
      simp [disable_interrupt, hg, hfail]
  · intro ext2 s2
    rw [enable_interrupt]
    split
    · exact ⟨rfl, rfl⟩
    · split <;> exact ⟨rfl, rfl⟩

/-- Witness for the amended C7 at the failing channel fixture. -/
theorem transport_error_amended_witness :
    (disable_interrupt extOn sendFail initState).state = initState ∧
    ∀ ext2 : Externals, ∀ s2 : NVDAState,
      (enable_interrupt ext2 s2).raised = false ∧
      (enable_interrupt ext2 s2).sentBatches = [] :=
  transport_error_amended extOn sendFail initState rfl

/-- Claim C8, counterexample: after a completed phrase cycle the pending
list is never cleared, so a second phrase-ended with no phrase-started in
between (the prior start was already matched by the prior end, and
`pre_phrase_sent` is false) passes the gate and schedules the deferred
restore again, contrary to the claim that an unmatched phrase-ended
schedules no deferred action. -/
theorem unmatched_end_schedules_cex :
    cexEnd.state.pre_phrase_sent = false ∧
    cexEnd.state.reenable_commands = ["enableSpeakTypedWords"] ∧
    (enable_interrupt extOn cexEnd.state).scheduledDelayMs = some 400 := by
  decide

/-- Claim C8 as amended: a phrase-ended while the pending list is empty,
in particular any phrase-ended before the first gate-passing
phrase-started, is a total no-op: no command-batch call, no scheduled
action, no exception, state unchanged.  An unmatched phrase-ended after a
completed cycle is not covered by that guard, because the pending list is
never cleared. -/
theorem unmatched_end_amended (ext : Externals) (s : NVDAState)
    (he : s.reenable_commands = []) :
    enable_interrupt ext s =
      { state := s, sentBatches := [], scheduledDelayMs := none,
        raised := false } := by
  rw [enable_interrupt]
  split
  · rfl
  · simp [he]

/-- Witness for the amended C8 from the initial state. -/
theorem unmatched_end_amended_witness :
    enable_interrupt extOn initState =
      { state := initState, sentBatches := [], scheduledDelayMs := none,
        raised := false } :=
  unmatched_end_amended extOn initState rfl

end SightFreeTalon
